import Mathlib

/-
Verification of the bionumpy slice: the encoded-array subsystem
(bionumpy/encoded_array.py), the file-open dispatch layer (bionumpy/files.py),
and the chunked-reading / chromosome-grouping behaviour exercised by the
tests (tests/test_io.py, tests/test_parsers.py, tests/test_chromosome_provider.py).

Strings are embedded as lists of character codes (Nat); numpy arrays backing
EncodedArray objects are embedded as List Nat; ragged arrays as a flat backing
array plus a row-length vector, exactly as the source stores them.
-/

namespace BioNumpy

/-- Modelled from the spec: the encodings module (encodings/base_encoding.py,
encodings/identity_encoding.py and the concrete alphabet encodings) is not
under src/.  Per spec section 3 and 4.1 an Encoding is a stateless strategy
object with encode/decode over raw codes, an is_base_encoding flag (true only
for the identity raw-character-code encodings), an is_one_to_one_encoding flag
(true when decode inverts encode, enabling textual round trip), and an
is_numeric marker for quality-score-like encodings whose encoded form is plain
numeric data.  We model a closed family: the Base encoding, the Identity
staging encoding, two one-to-one alphabet encodings (dna, amino), a
non-one-to-one display-only encoding (kmer, rendered via to_string as decimal
text) and a numeric quality encoding.  Python compares encoding objects by
object equality, which the derived DecidableEq mirrors. -/
inductive Encoding where
  | base
  | identity
  | dna
  | amino
  | kmer
  | quality
deriving DecidableEq, Repr

/-- Modelled from the spec: per-symbol encode table of each encoding variant
(base/identity are passthrough; dna maps the character codes of A,C,G,T to
0..3; amino shifts by 65; kmer and quality pass numeric values through). -/
def Encoding.encodeByte : Encoding → Nat → Nat
  | .base, c => c
  | .identity, c => c
  | .dna, c => if c = 65 then 0 else if c = 67 then 1 else if c = 71 then 2 else if c = 84 then 3 else 0
  | .amino, c => c - 65
  | .kmer, c => c
  | .quality, c => c

/-- Modelled from the spec: per-symbol decode table, the inverse of encodeByte
on the one-to-one encodings. -/
def Encoding.decodeByte : Encoding → Nat → Nat
  | .base, c => c
  | .identity, c => c
  | .dna, c => if c = 0 then 65 else if c = 1 then 67 else if c = 2 then 71 else 84
  | .amino, c => c + 65
  | .kmer, c => c
  | .quality, c => c

/-- Modelled from the spec: Encoding.encode maps raw codes elementwise. -/
def Encoding.encode (e : Encoding) (data : List Nat) : List Nat :=
  data.map e.encodeByte

/-- Modelled from the spec: Encoding.decode maps symbol codes elementwise. -/
def Encoding.decode (e : Encoding) (data : List Nat) : List Nat :=
  data.map e.decodeByte

/-- Modelled from the spec: is_base_encoding is true only for the identity
raw-character-code encodings.  The Identity staging encoding behaves as a
passthrough and passes the base-encoding assertion in
_encode_base_encoded_array (encode_string tags fresh character codes with
IdentityEncoding and immediately feeds them to that function). -/
def Encoding.is_base_encoding : Encoding → Bool
  | .base => true
  | .identity => true
  | _ => false

/-- Modelled from the spec: one-to-one flag; true for the passthrough and
alphabet encodings whose decode inverts encode, false for the display-only
kmer encoding and for numeric encodings. -/
def Encoding.is_one_to_one_encoding : Encoding → Bool
  | .base => true
  | .identity => true
  | .dna => true
  | .amino => true
  | .kmer => false
  | .quality => false

/-- Modelled from the spec: the is_numeric marker attribute carried only by
numeric (quality-score-like) encodings; the source tests it with hasattr. -/
def Encoding.is_numeric : Encoding → Bool
  | .quality => true
  | _ => false

/-- Modelled from the spec: rendering of one element by an encoding that is
not one-to-one; the kmer-style encoding renders the numeric symbol code as
decimal text, others render the decoded character. -/
def Encoding.to_string (e : Encoding) (c : Nat) : String :=
  match e with
  | .kmer => toString c
  | _ => String.singleton (Char.ofNat (e.decodeByte c))

/-- Modelled from the spec: printable name of each encoding object, used in
error messages. -/
def Encoding.name : Encoding → String
  | .base => "BaseEncoding"
  | .identity => "IdentityEncoding"
  | .dna => "DNAEncoding"
  | .amino => "AminoAcidEncoding"
  | .kmer => "KmerEncoding"
  | .quality => "QualityEncoding"

/-- EncodedArray (encoded_array.py, class EncodedArray): a numeric array of
symbol codes paired with its Encoding tag. -/
structure EncodedArray where
  data : List Nat
  encoding : Encoding
deriving DecidableEq, Repr

/-- EncodedRaggedArray (encoded_array.py, class EncodedRaggedArray): a ragged
array whose flat backing _data is an EncodedArray, plus the row-length shape. -/
structure EncodedRaggedArray where
  data : EncodedArray
  lens : List Nat
deriving DecidableEq, Repr

/-- EncodedRaggedArray.encoding property: read through to the backing flat
EncodedArray, never stored independently. -/
def EncodedRaggedArray.encoding (r : EncodedRaggedArray) : Encoding :=
  r.data.encoding

/-- Error kinds raised by the conversion layer: EncodingException and
IncompatibleEncodingsException are the two exception classes declared at the
top of encoded_array.py; assertionError stands for a failed Python assert;
attributeError for attribute access on a raw numpy array. -/
inductive EncError where
  | encodingException (msg : String)
  | incompatibleEncodingsException (msg : String)
  | assertionError
  | attributeError
deriving DecidableEq, Repr

/-- Possible results of the conversion entry points: an EncodedArray, an
EncodedRaggedArray, a raw numpy array (numeric encodings are never wrapped),
or a raw ragged array. -/
inductive EncResult where
  | encArr (a : EncodedArray)
  | encRagged (r : EncodedRaggedArray)
  | npArray (xs : List Nat)
  | raggedArray (flat : List Nat) (lens : List Nat)
deriving DecidableEq, Repr

/-- Message of the EncodingException raised by as_encoded_array when an
already-specially-encoded array is asked to change to a different encoding
(encoded_array.py line 328). -/
def change_encoding_msg (e t : Encoding) : String :=
  "Trying to encode already encoded array with encoding " ++ e.name ++
    " to encoding " ++ t.name ++
    ". This is not supported. Use the change_encoding function."

/-- Message of the IncompatibleEncodingsException raised by
_encode_encoded_array (encoded_array.py line 359). -/
def incompatible_msg (e t : Encoding) : String :=
  "Can only encode EncodedArray with BaseEncoding or target encoding. " ++
    "Base encoding is " ++ e.name ++ ", target encoding is " ++ t.name

/-- _encode_base_encoded_array (encoded_array.py lines 365-373): asserts the
input is base encoded, encodes its data with the target encoding, and wraps
the result in an EncodedArray unless the target is a numeric encoding. -/
def _encode_base_encoded_array (encoded_array : EncodedArray)
    (target_encoding : Encoding) : Except EncError EncResult :=
  if encoded_array.encoding.is_base_encoding = false then
    .error EncError.assertionError
  else
    let e := target_encoding.encode encoded_array.data
    if target_encoding.is_numeric then .ok (.npArray e)
    else .ok (.encArr ⟨e, target_encoding⟩)

/-- _encode_encoded_array (encoded_array.py lines 347-362): same encoding is a
no-op; Base to target encodes; target to Base decodes; anything else raises
IncompatibleEncodingsException. -/
def _encode_encoded_array (encoded_array : EncodedArray)
    (target_encoding : Encoding) : Except EncError EncResult :=
  if encoded_array.encoding = target_encoding then .ok (.encArr encoded_array)
  else if encoded_array.encoding = Encoding.base then
    _encode_base_encoded_array encoded_array target_encoding
  else if target_encoding = Encoding.base then
    .ok (.encArr ⟨encoded_array.encoding.decode encoded_array.data, Encoding.base⟩)
  else
    .error (.incompatibleEncodingsException
      (incompatible_msg encoded_array.encoding target_encoding))

/-- encode_string (encoded_array.py lines 279-282): tag the character codes of
the string with IdentityEncoding and stage-encode them to the target. -/
def encode_string (s : List Nat) (target_encoding : Encoding) :
    Except EncError EncResult :=
  _encode_base_encoded_array ⟨s, Encoding.identity⟩ target_encoding

/-- np_array_as_encoded_array (encoded_array.py lines 376-378): a raw numpy
array requires a numeric target encoding (assert) and passes through. -/
def np_array_as_encoded_array (s : List Nat) (target_encoding : Encoding) :
    Except EncError EncResult :=
  if Encoding.is_numeric target_encoding then .ok (.npArray s)
  else .error EncError.assertionError

/-- Behaviour of as_encoded_array on a flat EncodedArray input (the first
branch of encoded_array.py lines 323-330 followed, when the input is base
encoded, by the fall-through to _encode_encoded_array at line 344).  The
recursive call ragged_array_as_encoded_array makes on its ravelled flat
EncodedArray lands exactly here, so it is split out as a named function. -/
def _as_encoded_array_flat (a : EncodedArray) (target_encoding : Option Encoding) :
    Except EncError EncResult :=
  match target_encoding with
  | none => .ok (.encArr a)
  | some t =>
    if a.encoding = t then .ok (.encArr a)
    else if a.encoding ≠ Encoding.base then
      .error (.encodingException (change_encoding_msg a.encoding t))
    else _encode_encoded_array a t

/-- Ragged inputs to ragged_array_as_encoded_array: an EncodedRaggedArray or a
plain RaggedArray (flat raw data plus shape). -/
inductive RaggedInput where
  | encoded (r : EncodedRaggedArray)
  | raw (flat : List Nat) (lens : List Nat)
deriving DecidableEq, Repr

/-- ragged_array_as_encoded_array (encoded_array.py lines 381-385): convert
the ravelled backing array (an EncodedArray lands in the flat EncodedArray
branch of as_encoded_array, a raw numpy array in np_array_as_encoded_array),
then re-wrap with the original row shape; an EncodedArray result becomes an
EncodedRaggedArray, a raw result a plain RaggedArray. -/
def ragged_array_as_encoded_array (s : RaggedInput) (target_encoding : Encoding) :
    Except EncError EncResult :=
  let flatRes :=
    match s with
    | .encoded r => _as_encoded_array_flat r.data (some target_encoding)
    | .raw flat _ => np_array_as_encoded_array flat target_encoding
  let lens := match s with | .encoded r => r.lens | .raw _ l => l
  match flatRes with
  | .error e => .error e
  | .ok (.encArr a) => .ok (.encRagged ⟨a, lens⟩)
  | .ok (.npArray xs) => .ok (.raggedArray xs lens)
  | .ok other => .ok other

/-- encode_list_of_strings (encoded_array.py lines 285-289): build the ragged
array of character codes (flat concatenation, row lengths = string lengths,
backing EncodedArray created with the default Base encoding) and send it
through ragged_array_as_encoded_array. -/
def encode_list_of_strings (ss : List (List Nat)) (target_encoding : Encoding) :
    Except EncError EncResult :=
  ragged_array_as_encoded_array
    (.encoded ⟨⟨ss.flatten, Encoding.base⟩, ss.map List.length⟩) target_encoding

/-- Inputs accepted by as_encoded_array: a string (its character codes), a
list of strings, an EncodedArray, an EncodedRaggedArray, a raw numpy array or
a plain RaggedArray. -/
inductive AsInput where
  | str (cs : List Nat)
  | strList (ss : List (List Nat))
  | encArr (a : EncodedArray)
  | encRagged (r : EncodedRaggedArray)
  | npArray (xs : List Nat)
  | raggedArray (flat : List Nat) (lens : List Nat)
deriving DecidableEq, Repr

/-- as_encoded_array (encoded_array.py lines 292-344).  Already-encoded input:
returned unchanged when the target is absent or equal to its encoding; if the
input encoding is not Base and differs from the target, EncodingException;
a Base-encoded flat array falls through to _encode_encoded_array and a
Base-encoded ragged array to ragged_array_as_encoded_array.  Otherwise the
target defaults to Base and the input is dispatched on its type. -/
def as_encoded_array (s : AsInput) (target_encoding : Option Encoding) :
    Except EncError EncResult :=
  match s with
  | .encArr a => _as_encoded_array_flat a target_encoding
  | .encRagged r =>
    match target_encoding with
    | none => .ok (.encRagged r)
    | some t =>
      if r.data.encoding = t then .ok (.encRagged r)
      else if r.data.encoding ≠ Encoding.base then
        .error (.encodingException (change_encoding_msg r.data.encoding t))
      else ragged_array_as_encoded_array (.encoded r) t
  | .str cs => encode_string cs (target_encoding.getD Encoding.base)
  | .strList ss => encode_list_of_strings ss (target_encoding.getD Encoding.base)
  | .raggedArray flat lens =>
    ragged_array_as_encoded_array (.raw flat lens) (target_encoding.getD Encoding.base)
  | .npArray xs => np_array_as_encoded_array xs (target_encoding.getD Encoding.base)

/-- Helper: whether a conversion result is the
IncompatibleEncodingsException. -/
def isIncompatibleEncodingsError : Except EncError EncResult → Bool
  | .error (.incompatibleEncodingsException _) => true
  | _ => false

/-- Helper: whether a conversion result is any raised error. -/
def isErrorResult : Except EncError EncResult → Bool
  | .error _ => true
  | _ => false

/-- Values a caller may try to assign through EncodedArray.__setitem__: a
Python str (its character codes), an EncodedArray, or something else such as
a plain integer or a raw numpy array. -/
inductive SetItemValue where
  | strVal (s : List Nat)
  | encVal (a : EncodedArray)
  | intVal (n : Int)
  | npVal (xs : List Nat)
deriving DecidableEq, Repr

/-- Slice-assignment on the backing numpy array: ndarray.__setitem__ writing
the value elements starting at the given index (external numpy dependency). -/
def np_setitem (d : List Nat) (i : Nat) (v : List Nat) : List Nat :=
  d.take i ++ v ++ d.drop (i + v.length)

/-- EncodedArray.__setitem__ (encoded_array.py lines 194-212): asserts the
value is a str or an EncodedArray (anything else fails the assert); a str is
first encoded with the target array's own encoding via encode_string; then
the value's backing data is written into the underlying numpy array. -/
def EncodedArray.setitem (self : EncodedArray) (idx : Nat) (value : SetItemValue) :
    Except EncError EncodedArray :=
  match value with
  | .encVal a => .ok ⟨np_setitem self.data idx a.data, self.encoding⟩
  | .strVal s =>
    match encode_string s self.encoding with
    | .ok (.encArr a) => .ok ⟨np_setitem self.data idx a.data, self.encoding⟩
    | .ok _ => .error EncError.attributeError
    | .error e => .error e
  | .intVal _ => .error EncError.assertionError
  | .npVal _ => .error EncError.assertionError

/-- Array functions dispatched through EncodedArray.__array_function__, each
carrying the arguments the source branch reads; the other constructor stands
for every numpy array function outside the handled set. -/
inductive ArrayFuncCall where
  | bincount (a : EncodedArray)
  | concatenate (arrs : List EncodedArray)
  | whereSelect (cond : List Bool) (x : EncodedArray) (y : EncodedArray)
  | zeros_like (a : EncodedArray)
  | appendCall (a : EncodedArray) (b : EncodedArray)
  | insertCall (a : EncodedArray) (idx : Nat) (vals : EncodedArray)
  | sliding_window_view (a : EncodedArray) (w : Nat)
  | as_strided (a : EncodedArray) (n : Nat) (stride : Nat)
  | other (fid : Nat) (args : List EncodedArray)
deriving DecidableEq, Repr

/-- Result of an __array_function__ dispatch: a wrapped EncodedArray, a raw
numpy result, or the NotImplemented sentinel. -/
inductive ArrayFuncResult where
  | encoded (a : EncodedArray)
  | raw (xs : List Nat)
  | notImplemented
deriving DecidableEq, Repr

/-- Encoding carried by an __array_function__ result when it is a wrapped
EncodedArray. -/
def ArrayFuncResult.encodingOf : ArrayFuncResult → Option Encoding
  | .encoded a => some a.encoding
  | _ => none

/-- External numpy np.bincount on the raw codes. -/
def np_bincount (xs : List Nat) : List Nat :=
  (List.range (xs.foldr max 0 + 1)).map (fun v => xs.count v)

/-- External numpy np.where on raw data. -/
def np_where (c : List Bool) (x y : List Nat) : List Nat :=
  (c.zip (x.zip y)).map (fun p => if p.1 then p.2.1 else p.2.2)

/-- External numpy np.insert on raw data. -/
def np_insert (xs : List Nat) (i : Nat) (vs : List Nat) : List Nat :=
  xs.take i ++ vs ++ xs.drop i

/-- External numpy sliding_window_view on raw data, flattened. -/
def np_sliding_window (xs : List Nat) (w : Nat) : List Nat :=
  ((List.range (xs.length + 1 - w)).map (fun i => (xs.drop i).take w)).flatten

/-- External numpy as_strided on raw data, flattened. -/
def np_as_strided (xs : List Nat) (n stride : Nat) : List Nat :=
  (List.range n).map (fun i => xs.getD (i * stride) 0)

/-- EncodedArray.__array_function__ (encoded_array.py lines 228-248):
np.bincount runs on the raw codes and returns a raw result; np.concatenate,
np.where, np.zeros_like, np.append, np.insert, sliding_window_view and
as_strided run on the raw data and re-wrap the result with self's encoding;
every other array function returns NotImplemented. -/
def EncodedArray.array_function (self : EncodedArray) (call : ArrayFuncCall) :
    ArrayFuncResult :=
  match call with
  | .bincount a => .raw (np_bincount a.data)
  | .concatenate arrs => .encoded ⟨(arrs.map EncodedArray.data).flatten, self.encoding⟩
  | .whereSelect c x y => .encoded ⟨np_where c x.data y.data, self.encoding⟩
  | .zeros_like a => .encoded ⟨a.data.map (fun _ => 0), self.encoding⟩
  | .appendCall a b => .encoded ⟨a.data ++ b.data, self.encoding⟩
  | .insertCall a i v => .encoded ⟨np_insert a.data i v.data, self.encoding⟩
  | .sliding_window_view a w => .encoded ⟨np_sliding_window a.data w, self.encoding⟩
  | .as_strided a n s => .encoded ⟨np_as_strided a.data n s, self.encoding⟩
  | .other _ _ => .notImplemented

/-- EncodedArray.__str__ for one-dimensional data (encoded_array.py lines
131-165; our backing data model is one-dimensional).  For an encoding that is
not one-to-one: show the first 20 elements rendered by the encoding's
to_string, bracketed and comma separated.  For a one-to-one encoding: decode,
show the first 20 characters, and append the ellipsis marker exactly when the
decoded text has more than 20 elements. -/
def EncodedArray.str (self : EncodedArray) : String :=
  if self.encoding.is_one_to_one_encoding = false then
    let data_to_show := self.data.take 20
    "[" ++ String.intercalate ", " (data_to_show.map self.encoding.to_string) ++ "]"
  else
    let text := self.encoding.decode self.data
    String.mk ((text.take 20).map Char.ofNat) ++
      (if text.length > 20 then "..." else "")

/-- Buffer classes appearing in the buffer_types dispatch table of files.py. -/
inductive BufferTypeId where
  | vcf
  | bed
  | narrowPeak
  | multilineFasta
  | fastq
  | gfaSequence
  | gff
  | sam
  | bam
  | sizes
deriving DecidableEq, Repr

/-- buffer_types (files.py lines 115-130): the literal suffix dispatch table. -/
def buffer_types : List (String × BufferTypeId) :=
  [(".vcf", .vcf), (".bed", .bed), (".narrowPeak", .narrowPeak),
   (".fasta", .multilineFasta), (".fa", .multilineFasta),
   (".fastq", .fastq), (".fq", .fastq), (".gfa", .gfaSequence),
   (".gff", .gff), (".gtf", .gff), (".gff3", .gff),
   (".sam", .sam), (".bam", .bam), (".sizes", .sizes)]

/-- A single-quote character, used when rendering the supported-suffix list
the way Python str(list(...)) does. -/
def squote : String := String.singleton (Char.ofNat 39)

/-- The supported-suffix list rendered as Python's
str(list(buffer_types.keys()))[1:-1]: quoted suffixes, comma separated, with
the surrounding brackets stripped. -/
def supported_suffix_list_str : String :=
  String.intercalate ", "
    ((buffer_types.map Prod.fst).map (fun k => squote ++ k ++ squote))

/-- Message of the RuntimeError raised by _get_buffer_type (files.py lines
153-155); the source's two f-string fragments concatenate without a space,
producing the literal text "function oruse one of". -/
def unsupported_suffix_msg (suffix : String) : String :=
  "File format " ++ suffix ++ " does not have a default buffer type. " ++
    "Specify buffer_type argument using get_bufferclass_for_datatype function or" ++
    "use one of " ++ supported_suffix_list_str

/-- _get_buffer_type (files.py lines 149-155): look the suffix up in the
dispatch table; an unknown suffix raises a RuntimeError naming the supported
suffixes, never falling back to a default buffer type. -/
def _get_buffer_type (suffix : String) : Except String BufferTypeId :=
  match buffer_types.lookup suffix with
  | some bt => .ok bt
  | none => .error (unsupported_suffix_msg suffix)

/-- Objects returned by the open API: an NpBufferedWriter over a buffer type,
an NpDataclassReader (with its gzip prepend-mode flag), or an IndexedFasta. -/
inductive OpenedFile where
  | writer (bt : BufferTypeId)
  | reader (bt : BufferTypeId) (prependMode : Bool)
  | indexedFasta (basename : String)
deriving DecidableEq, Repr

/-- Whether the open API handed back a writer object. -/
def OpenedFile.isWriter : OpenedFile → Bool
  | .writer _ => true
  | _ => false

/-- _get_buffered_file (files.py lines 133-146): resolve the buffer type from
the suffix when none is supplied; a mode in ("w", "write", "wb") opens an
NpBufferedWriter; every other mode (including "a") opens the file for reading
and returns an NpDataclassReader, with prepend mode switched on for gzip. -/
def _get_buffered_file (suffix : String) (mode : Option String) (is_gzip : Bool)
    (buffer_type : Option BufferTypeId) : Except String OpenedFile := do
  let bt ← match buffer_type with
    | some b => pure b
    | none => _get_buffer_type suffix
  if mode = some "w" ∨ mode = some "write" ∨ mode = some "wb" then
    return OpenedFile.writer bt
  else
    return OpenedFile.reader bt is_gzip

/-- Split a character list at every dot, keeping the pieces in order. -/
def splitOnDot : List Char → List (List Char)
  | [] => [[]]
  | c :: rest =>
    match splitOnDot rest with
    | [] => if c = Char.ofNat 46 then [[], []] else [[c]]
    | s :: ss => if c = Char.ofNat 46 then [] :: s :: ss else (c :: s) :: ss

/-- PurePath(filename).suffixes: the dot-prefixed suffix components after the
first name component. -/
def pathSuffixes (filename : String) : List String :=
  ((splitOnDot filename.toList).drop 1).map (fun s => String.mk (Char.ofNat 46 :: s))

/-- Whether the pattern occurs as a contiguous subsequence of the text. -/
def containsSeq (pat : List Char) : List Char → Bool
  | [] => pat == []
  | c :: rest => pat.isPrefixOf (c :: rest) || containsSeq pat rest

/-- The format suffix bnp_open dispatches on: the last suffix, with a
trailing .gz stripped down to the penultimate suffix. -/
def format_suffix (filename : String) : Option String :=
  match (pathSuffixes filename).getLast? with
  | none => none
  | some last =>
    if last = ".gz" then ((pathSuffixes filename).dropLast).getLast?
    else some last

/-- bnp_open (files.py lines 158-194): take the last suffix; .gz and .bam are
gzip compressed and .gz dispatches on the penultimate suffix; .fai builds an
IndexedFasta (asserting the mode is not a write mode); everything else goes
through _get_buffered_file. -/
def bnp_open (filename : String) (mode : Option String)
    (buffer_type : Option BufferTypeId) : Except String OpenedFile :=
  match (pathSuffixes filename).getLast? with
  | none => .error "IndexError"
  | some last =>
    let is_gzip := last = ".gz" ∨ last = ".bam"
    match if last = ".gz" then ((pathSuffixes filename).dropLast).getLast?
          else some last with
    | none => .error "IndexError"
    | some suffix =>
      if suffix = ".fai" then
        if mode = some "w" ∨ mode = some "write" ∨ mode = some "wb" then
          .error "AssertionError"
        else .ok (.indexedFasta (filename.dropRight 4))
      else _get_buffered_file suffix mode is_gzip buffer_type

/-- Schema of the record dataclass bound to a buffer type: its declared field
count (dataclasses.fields in the source). -/
structure BufferTypeSchema where
  numFields : Nat
deriving DecidableEq, Repr

/-- A format buffer's decoded payload: one column of values per field. -/
structure FormatBufferData where
  columns : List (List Nat)
deriving DecidableEq, Repr

/-- Modelled from the spec: parser.py (class NumpyFileReader) is not under
src/.  Per spec section 4.5 the chunked byte reader yields one format buffer
per read_chunk call and returns an end-of-stream sentinel (None) once no
further data remains, idempotently on every later call.  The state is the
bound buffer-type schema plus the remaining stream of format buffers. -/
structure NumpyFileReaderState where
  buffer_type : BufferTypeSchema
  chunks : List FormatBufferData
deriving DecidableEq, Repr

/-- Modelled from the spec: NumpyFileReader.read_chunk per section 4.5 -
the next format buffer, or the None sentinel at exhaustion (state unchanged,
so a second call yields the sentinel again). -/
def NumpyFileReader.read_chunk (r : NumpyFileReaderState) (chunk_size : Nat) :
    Option FormatBufferData × NumpyFileReaderState :=
  match r.chunks with
  | [] => (none, r)
  | c :: rest => (some c, { r with chunks := rest })

/-- A decoded record array instance: one column per declared field. -/
structure RecordArrayInst where
  columns : List (List Nat)
deriving DecidableEq, Repr

/-- The empty dataclass built by NpDataclassReader.read_chunk at end of
stream: dataclass(*[[] for field in dataclasses.fields(dataclass)]), one
empty column per declared field of the bound schema. -/
def empty_dataclass (bt : BufferTypeSchema) : RecordArrayInst :=
  ⟨List.replicate bt.numFields []⟩

/-- NpDataclassReader.read_chunk (files.py lines 47-76): delegate to the
underlying NumpyFileReader; when it returns the None sentinel, return an
empty instance of the bound dataclass instead; otherwise decode the chunk. -/
def NpDataclassReader.read_chunk (r : NumpyFileReaderState) (chunk_size : Nat) :
    RecordArrayInst × NumpyFileReaderState :=
  match NumpyFileReader.read_chunk r chunk_size with
  | (none, r2) => (empty_dataclass r.buffer_type, r2)
  | (some chunk, r2) => (⟨chunk.columns⟩, r2)

/-- Left-pad a chromosome-name byte row with zero bytes to the given width,
the way the fixed-width chromosome column stores rows of differing length
(tests/test_chromosome_provider.py, DummyClass.concatenate writes each name
right-aligned into a zero-filled matrix). -/
def padName (n : Nat) (name : List Nat) : List Nat :=
  List.replicate (n - name.length) 0 ++ name

/-- Equality of two chromosome-name byte rows after zero-padding both to the
common width, matching elementwise comparison of fixed-width rows. -/
def chromNamesEq (a b : List Nat) : Bool :=
  padName (max a.length b.length) a == padName (max a.length b.length) b

/-- Modelled from the spec: chromosome_provider.py (class
ChromosomeFileStreamProvider) is not under src/.  Per spec section 4.8 the
incremental provider accumulates the rows of the current chromosome name,
emits the accumulated (name, group) pair when a row with a new name appears
(keeping the name under which accumulation started), and emits the final
group at exhaustion.  Rows are (name bytes, data value) pairs. -/
def chromosome_groups :
    List (List Nat × Nat) → Option (List Nat × List Nat) → List (List Nat × List Nat)
  | [], none => []
  | [], some g => [g]
  | (name, d) :: rest, none => chromosome_groups rest (some (name, [d]))
  | (name, d) :: rest, some (cur, ds) =>
    if chromNamesEq name cur then chromosome_groups rest (some (cur, ds ++ [d]))
    else (cur, ds) :: chromosome_groups rest (some (name, [d]))

/-- Modelled from the spec: the incremental chromosome-stream provider of
section 4.8 over a lazy sequence of record chunks.  Accumulating the current
name across chunk boundaries and emitting on each within-chunk transition is
equivalent to scanning the concatenated row stream, so the chunk structure is
flattened before grouping. -/
def ChromosomeFileStreamProvider (chunks : List (List (List Nat × Nat))) :
    List (List Nat × List Nat) :=
  chromosome_groups chunks.flatten none

/-- Character codes of a name string. -/
def strBytes (s : String) : List Nat :=
  s.toList.map Char.toNat

/-- The four chromosome-tagged input chunks of
tests/test_chromosome_provider.py (test_chromosome_stream). -/
def chromosomeTestChunks : List (List (List Nat × Nat)) :=
  [[(strBytes "chr1", 0), (strBytes "chr1", 1)],
   [(strBytes "chr1", 2), (strBytes "chr2", 3)],
   [(strBytes "chr3", 4), (strBytes "chr4", 5), (strBytes "chr5", 6)],
   [(strBytes "\x00chr5", 7), (strBytes "chr16", 8)]]

/-- Modelled from the spec: the boundary-trimming of the chunked reader
(parser.py is not under src/).  Per spec section 4.5 a chunk covers freshly
read bytes trimmed back to the last complete-record boundary, so at record
granularity one chunk is the shortest nonempty record prefix whose byte total
reaches min_chunk_size (or all remaining records).  Returns the chunk and
the carried-over remainder. -/
def takeChunk (m : Nat) : List (List Nat) → List (List Nat) × List (List Nat)
  | [] => ([], [])
  | r :: rs =>
    if m ≤ r.length then ([r], rs)
    else
      let p := takeChunk (m - r.length) rs
      (r :: p.1, p.2)

theorem takeChunk_append (m : Nat) (rs : List (List Nat)) :
    (takeChunk m rs).1 ++ (takeChunk m rs).2 = rs := by
  induction rs generalizing m with
  | nil => simp [takeChunk]
  | cons r rest ih =>
    by_cases h : m ≤ r.length
    · simp [takeChunk, h]
    · simp [takeChunk, h, ih]

theorem takeChunk_snd_length (m : Nat) (rs : List (List Nat)) (h : rs ≠ []) :
    (takeChunk m rs).2.length < rs.length := by
  induction rs generalizing m with
  | nil => simp at h
  | cons r rest ih =>
    by_cases hm : m ≤ r.length
    · simp [takeChunk, hm]
    · by_cases hr : rest = []
      · subst hr
        simp [takeChunk, hm]
      · have := ih (m - r.length) hr
        simp only [takeChunk, hm, if_false, List.length_cons]
        omega

/-- Modelled from the spec: read_chunks(min_chunk_size) per spec section 4.5,
the lazy forward-only sequence of record-boundary-trimmed chunks with
boundary carry-over, at record granularity. -/
def read_chunks (m : Nat) (records : List (List Nat)) : List (List (List Nat)) :=
  match h : records with
  | [] => []
  | _ :: _ =>
    (takeChunk m records).1 :: read_chunks m (takeChunk m records).2
termination_by records.length
decreasing_by
  rw [← h]
  exact takeChunk_snd_length m records (by rw [h]; simp)

/-- Reading the whole file as one chunk (spec section 4.5 read()): one format
buffer covering all records. -/
def read_whole (records : List (List Nat)) : List (List Nat) :=
  records

theorem read_chunks_flatten (m : Nat) (records : List (List Nat)) :
    (read_chunks m records).flatten = records := by
  induction' hlen : records.length using Nat.strong_induction_on with n ih generalizing records
  cases hr : records with
  | nil => simp [read_chunks]
  | cons r rs =>
    subst hr
    rw [read_chunks]
    simp only [List.flatten_cons]
    have hlt : (takeChunk m (r :: rs)).2.length < n := by
      have := takeChunk_snd_length m (r :: rs) (by simp)
      omega
    rw [ih _ hlt _ rfl]
    exact takeChunk_append m (r :: rs)

/-- C8: as_encoded_array returns an already-encoded array or ragged array
unchanged when the target encoding is absent or equal to the array's own
encoding (no-op conversion). -/
theorem C8_as_encoded_array_noop (a : EncodedArray) (r : EncodedRaggedArray) :
    as_encoded_array (.encArr a) none = .ok (.encArr a) ∧
    as_encoded_array (.encArr a) (some a.encoding) = .ok (.encArr a) ∧
    as_encoded_array (.encRagged r) none = .ok (.encRagged r) ∧
    as_encoded_array (.encRagged r) (some r.encoding) = .ok (.encRagged r) := by
  refine ⟨rfl, ?_, rfl, ?_⟩ <;>
    simp [as_encoded_array, _as_encoded_array_flat, EncodedRaggedArray.encoding]

/-- C1 counterexample: converting a dna-encoded array to the amino encoding
via as_encoded_array does fail, but with EncodingException, not with
IncompatibleEncodingsException as the claim states. -/
theorem C1_counterexample :
    isErrorResult
      (as_encoded_array (.encArr ⟨[0, 1], Encoding.dna⟩) (some Encoding.amino)) = true ∧
    isIncompatibleEncodingsError
      (as_encoded_array (.encArr ⟨[0, 1], Encoding.dna⟩) (some Encoding.amino)) = false := by
  decide

/-- C1 (amended): for an EncodedArray or EncodedRaggedArray whose encoding E
is neither the target E2 nor the Base encoding, as_encoded_array raises
EncodingException (the IncompatibleEncodingsException lives in the lower
level _encode_encoded_array, which as_encoded_array never reaches with a
non-Base input). -/
theorem C1_amended_raises_encoding_exception (data : List Nat) (lens : List Nat)
    (E E2 : Encoding) (h1 : E ≠ E2) (h2 : E ≠ Encoding.base) :
    as_encoded_array (.encArr ⟨data, E⟩) (some E2) =
      .error (.encodingException (change_encoding_msg E E2)) ∧
    as_encoded_array (.encRagged ⟨⟨data, E⟩, lens⟩) (some E2) =
      .error (.encodingException (change_encoding_msg E E2)) := by
  constructor <;> simp [as_encoded_array, _as_encoded_array_flat, h1, h2]

/-- C1 witness: the amended statement applied to a concrete dna-encoded array
with amino target. -/
theorem C1_witness :
    Encoding.dna ≠ Encoding.amino ∧ Encoding.dna ≠ Encoding.base ∧
    (as_encoded_array (.encArr ⟨[0, 1], Encoding.dna⟩) (some Encoding.amino) =
      .error (.encodingException (change_encoding_msg Encoding.dna Encoding.amino)) ∧
     as_encoded_array (.encRagged ⟨⟨[0, 1], Encoding.dna⟩, [2]⟩) (some Encoding.amino) =
      .error (.encodingException (change_encoding_msg Encoding.dna Encoding.amino))) :=
  ⟨by decide, by decide,
    C1_amended_raises_encoding_exception [0, 1] [2] Encoding.dna Encoding.amino
      (by decide) (by decide)⟩

/-- C9: each whitelisted array function that wraps its result (concatenate,
where, zeros_like, append, insert, sliding_window_view, as_strided) returns
an EncodedArray tagged with the dispatching array's encoding, and every array
function outside the handled set returns NotImplemented. -/
theorem C9_array_function_whitelist (self x y a b v : EncodedArray)
    (arrs : List EncodedArray) (c : List Bool) (i w n s fid : Nat)
    (others : List EncodedArray) :
    (self.array_function (.concatenate arrs)).encodingOf = some self.encoding ∧
    (self.array_function (.whereSelect c x y)).encodingOf = some self.encoding ∧
    (self.array_function (.zeros_like a)).encodingOf = some self.encoding ∧
    (self.array_function (.appendCall a b)).encodingOf = some self.encoding ∧
    (self.array_function (.insertCall a i v)).encodingOf = some self.encoding ∧
    (self.array_function (.sliding_window_view a w)).encodingOf = some self.encoding ∧
    (self.array_function (.as_strided a n s)).encodingOf = some self.encoding ∧
    self.array_function (.other fid others) = .notImplemented := by
  simp [EncodedArray.array_function, ArrayFuncResult.encodingOf]

/-- C10: element assignment on an EncodedArray rejects any value that is
neither a str nor an EncodedArray (failed assert); a str is encoded with the
array's own encoding before being written; an EncodedArray's raw data is
written as is. -/
theorem C10_setitem_guard (self : EncodedArray) (idx : Nat) (n : Int)
    (xs s : List Nat) (a : EncodedArray)
    (hnum : self.encoding.is_numeric = false) :
    self.setitem idx (.intVal n) = .error EncError.assertionError ∧
    self.setitem idx (.npVal xs) = .error EncError.assertionError ∧
    self.setitem idx (.strVal s) =
      .ok ⟨np_setitem self.data idx (self.encoding.encode s), self.encoding⟩ ∧
    self.setitem idx (.encVal a) =
      .ok ⟨np_setitem self.data idx a.data, self.encoding⟩ := by
  refine ⟨rfl, rfl, ?_, rfl⟩
  have hbase : (Encoding.identity).is_base_encoding = true := rfl
  simp [EncodedArray.setitem, encode_string, _encode_base_encoded_array, hnum, hbase]

/-- C10 witness: the guard applied to a concrete dna-encoded array, a plain
integer, a raw numpy value, a one-character string and an encoded value. -/
theorem C10_witness :
    (Encoding.dna.is_numeric = false) ∧
    (EncodedArray.setitem ⟨[65, 66, 67], Encoding.dna⟩ 1 (.intVal 5) =
      .error EncError.assertionError ∧
     EncodedArray.setitem ⟨[65, 66, 67], Encoding.dna⟩ 1 (.npVal [7]) =
      .error EncError.assertionError ∧
     EncodedArray.setitem ⟨[65, 66, 67], Encoding.dna⟩ 1 (.strVal [67]) =
      .ok ⟨np_setitem (⟨[65, 66, 67], Encoding.dna⟩ : EncodedArray).data 1
            ((⟨[65, 66, 67], Encoding.dna⟩ : EncodedArray).encoding.encode [67]),
          (⟨[65, 66, 67], Encoding.dna⟩ : EncodedArray).encoding⟩ ∧
     EncodedArray.setitem ⟨[65, 66, 67], Encoding.dna⟩ 1 (.encVal ⟨[3], Encoding.dna⟩) =
      .ok ⟨np_setitem (⟨[65, 66, 67], Encoding.dna⟩ : EncodedArray).data 1 [3],
          (⟨[65, 66, 67], Encoding.dna⟩ : EncodedArray).encoding⟩) :=
  ⟨by decide, C10_setitem_guard ⟨[65, 66, 67], Encoding.dna⟩ 1 5 [7] [67]
      ⟨[3], Encoding.dna⟩ (by decide)⟩

/-- C5 counterexample: a one-dimensional array of 21 elements under the
non-one-to-one kmer encoding renders as the bracketed, comma-separated first
20 elements with no ellipsis marker anywhere (the rendering contains no dot
character at all), refuting the claim that every encoding appends the marker
beyond 20 elements. -/
theorem C5_counterexample :
    (⟨List.range 21, Encoding.kmer⟩ : EncodedArray).data.length > 20 ∧
    (⟨List.range 21, Encoding.kmer⟩ : EncodedArray).str =
      "[0, 1, 2, 3, 4, 5, 6, 7, 8, 9, 10, 11, 12, 13, 14, 15, 16, 17, 18, 19]" ∧
    ((⟨List.range 21, Encoding.kmer⟩ : EncodedArray).str.toList.count
      (Char.ofNat 46)) = 0 := by
  decide

/-- C5 (amended): for a one-dimensional EncodedArray under a one-to-one
encoding the rendering shows exactly the first 20 decoded characters followed
by the ellipsis marker when there are more than 20 elements, and all decoded
characters with no marker otherwise; under a non-one-to-one encoding the
rendering is exactly the first 20 elements rendered by the encoding's
to_string, bracketed and comma-separated, and its last character is the
closing bracket (so no ellipsis marker is appended), even when more elements
exist. -/
theorem C5_amended_rendering (data : List Nat) (E : Encoding) :
    (E.is_one_to_one_encoding = true →
      (data.length > 20 →
        EncodedArray.str ⟨data, E⟩ =
          String.mk (((E.decode data).take 20).map Char.ofNat) ++ "...") ∧
      (data.length ≤ 20 →
        EncodedArray.str ⟨data, E⟩ = String.mk ((E.decode data).map Char.ofNat))) ∧
    (E.is_one_to_one_encoding = false →
      EncodedArray.str ⟨data, E⟩ =
        "[" ++ String.intercalate ", " ((data.take 20).map E.to_string) ++ "]" ∧
      (EncodedArray.str ⟨data, E⟩).toList.getLast? = some (Char.ofNat 93)) := by
  constructor
  · intro h
    have hlen : (E.decode data).length = data.length := by simp [Encoding.decode]
    constructor
    · intro h20
      simp only [EncodedArray.str, h]
      rw [if_neg (by simp), if_pos (by omega)]
    · intro h20
      simp only [EncodedArray.str, h]
      rw [if_neg (by simp), if_neg (by omega), List.take_of_length_le (by omega)]
      simp
  · intro h
    have hstr : EncodedArray.str ⟨data, E⟩ =
        "[" ++ String.intercalate ", " ((data.take 20).map E.to_string) ++ "]" := by
      simp [EncodedArray.str, h]
    refine ⟨hstr, ?_⟩
    rw [hstr]
    have hd : ∀ a b : String, (a ++ b).toList = a.toList ++ b.toList :=
      fun a b => rfl
    have hrb : ("]" : String).toList = [Char.ofNat 93] := by decide
    rw [hd, hrb, List.getLast?_concat]

/-- C5 witness: the amended rendering applied to a 21-element base-encoded
array (one-to-one branch, ellipsis appended) and to a 21-element
kmer-encoded array (non-one-to-one branch, bracketed with no marker). -/
theorem C5_witness :
    (EncodedArray.str ⟨List.range 21, Encoding.base⟩ =
      String.mk (((Encoding.base.decode (List.range 21)).take 20).map Char.ofNat)
        ++ "...") ∧
    (EncodedArray.str ⟨List.range 21, Encoding.kmer⟩ =
      "[" ++ String.intercalate ", "
        (((List.range 21).take 20).map Encoding.kmer.to_string) ++ "]" ∧
     (EncodedArray.str ⟨List.range 21, Encoding.kmer⟩).toList.getLast? =
       some (Char.ofNat 93)) :=
  ⟨((C5_amended_rendering (List.range 21) Encoding.base).1 (by decide)).1 (by decide),
   (C5_amended_rendering (List.range 21) Encoding.kmer).2 (by decide)⟩

/-- C2: evaluating the mode dispatch of the open API at the inputs of
tests/test_io.py test_append_to_file shows that mode "w" opens a writer but
mode "a" opens a reader (opened for reading, with no write operation), so the
append step of the claim cannot be performed. -/
theorem C2_append_mode_opens_reader :
    bnp_open "bed_example.bed" (some "w") none = .ok (.writer .bed) ∧
    bnp_open "bed_example.bed" (some "a") none = .ok (.reader .bed false) ∧
    (OpenedFile.reader .bed false).isWriter = false :=
  ⟨rfl, rfl, rfl⟩

/-- C4: once the underlying stream is exhausted, NpDataclassReader.read_chunk
returns an instance of the bound schema with one empty column per declared
field, leaves the reader state unchanged (so every subsequent call does the
same), and raises nothing. -/
theorem C4_read_chunk_after_exhaustion (bt : BufferTypeSchema) (chunk_size : Nat) :
    NpDataclassReader.read_chunk ⟨bt, []⟩ chunk_size =
      (empty_dataclass bt, ⟨bt, []⟩) ∧
    (empty_dataclass bt).columns.length = bt.numFields ∧
    (empty_dataclass bt).columns.all List.isEmpty = true := by
  refine ⟨rfl, by simp [empty_dataclass], ?_⟩
  simp [empty_dataclass, List.all_eq_true]

/-- C6: a filename whose format suffix is missing from the dispatch table
makes the open API fail with the RuntimeError of _get_buffer_type, whose
message carries the rendered list of every supported suffix; no default
buffer type is ever substituted. -/
theorem C6_unknown_suffix_error (filename suffix : String) (mode : Option String)
    (h1 : format_suffix filename = some suffix)
    (h2 : buffer_types.lookup suffix = none)
    (h3 : suffix ≠ ".fai") :
    bnp_open filename mode none = .error (unsupported_suffix_msg suffix) ∧
    unsupported_suffix_msg suffix =
      "File format " ++ suffix ++ " does not have a default buffer type. " ++
        "Specify buffer_type argument using get_bufferclass_for_datatype function or" ++
        "use one of " ++ supported_suffix_list_str ∧
    ∀ k ∈ buffer_types.map Prod.fst,
      containsSeq k.toList supported_suffix_list_str.toList = true := by
  refine ⟨?_, rfl, by decide⟩
  unfold bnp_open
  unfold format_suffix at h1
  cases hl : (pathSuffixes filename).getLast? with
  | none => rw [hl] at h1; exact absurd h1 (by simp)
  | some last =>
    rw [hl] at h1
    simp only at h1
    simp only
    rw [h1]
    simp only
    rw [if_neg h3]
    simp [_get_buffered_file, _get_buffer_type, h2]
    rfl

/-- C6 witness: the unsupported-suffix failure at the concrete filename
tmp.airr of tests/test_parsers.py test_raises_error_for_unsupported_types. -/
theorem C6_witness :
    format_suffix "tmp.airr" = some ".airr" ∧
    buffer_types.lookup ".airr" = none ∧
    ".airr" ≠ ".fai" ∧
    (bnp_open "tmp.airr" none none = .error (unsupported_suffix_msg ".airr") ∧
     unsupported_suffix_msg ".airr" =
       "File format " ++ ".airr" ++ " does not have a default buffer type. " ++
         "Specify buffer_type argument using get_bufferclass_for_datatype function or" ++
         "use one of " ++ supported_suffix_list_str ∧
     ∀ k ∈ buffer_types.map Prod.fst,
       containsSeq k.toList supported_suffix_list_str.toList = true) :=
  ⟨by decide, by decide, by decide,
    C6_unknown_suffix_error "tmp.airr" ".airr" none (by decide) (by decide) (by decide)⟩

/-- C3 counterexample: on the four test chunks the incremental provider does
not emit its fifth group under the literal null-byte-prefixed name; the
claimed output list is not what the provider produces. -/
theorem C3_counterexample :
    ChromosomeFileStreamProvider chromosomeTestChunks ≠
      [(strBytes "chr1", [0, 1, 2]), (strBytes "chr2", [3]), (strBytes "chr3", [4]),
       (strBytes "chr4", [5]), (strBytes "\x00chr5", [6, 7]),
       (strBytes "chr16", [8])] := by
  decide

/-- C3 (amended): on the four test chunks the provider emits exactly six
(name, group) pairs in order, the fifth under the first-seen name chr5 (its
merged rows carry the zero-padded null-prefixed byte form, but the emitted
group name is chr5, matching tests/test_chromosome_provider.py). -/
theorem C3_amended_stream_groups :
    ChromosomeFileStreamProvider chromosomeTestChunks =
      [(strBytes "chr1", [0, 1, 2]), (strBytes "chr2", [3]), (strBytes "chr3", [4]),
       (strBytes "chr4", [5]), (strBytes "chr5", [6, 7]),
       (strBytes "chr16", [8])] := by
  decide

/-- C7: reading with any minimum chunk size and concatenating the yielded
chunks is record-for-record identical to reading the whole file in one
chunk: the boundary carry-over never drops, duplicates or reorders records. -/
theorem C7_chunked_read_equals_whole (m : Nat) (records : List (List Nat)) :
    (read_chunks m records).flatten = read_whole records :=
  read_chunks_flatten m records

end BioNumpy
